import Mathlib

/-!
Shallow embedding of the backend service in src/main.py: the data model
(CheckoutItem, CheckoutRequest), the checkout-session handler
(create_checkout_session) and the diagnostic handler (test_database),
together with theorems settling the specification claims about them.

Environment variables are modelled as an Env record of Option String
fields; Python truthiness of an optional string (None and the empty
string are falsy) is pyTruthy; the external Stripe call is a parameter
of type SessionParams -> Except String String, and the handler also
returns the list of calls it made so that claims about the outbound
payload and about no call being made can be stated.
-/

/-- Values a Python dict may carry (the metadata mapping maps strings to
arbitrary values). -/
inductive PyValue where
  | str (s : String)
  | int (n : Int)
  | bool (b : Bool)
  | none
deriving DecidableEq, Repr

/-- Mirrors class CheckoutItem (src/main.py lines 18-24). -/
structure CheckoutItem where
  id : String
  name : String
  unit_amount : Int
  quantity : Int := 1
  image : Option String := Option.none
  metadata : Option (List (String × PyValue)) := Option.none
deriving DecidableEq, Repr

/-- Mirrors class CheckoutRequest (src/main.py lines 27-31). -/
structure CheckoutRequest where
  items : List CheckoutItem
  currency : String := "usd"
  success_url : Option String := Option.none
  cancel_url : Option String := Option.none
deriving DecidableEq, Repr

/-- The process environment variables the handlers read. -/
structure Env where
  STRIPE_SECRET_KEY : Option String := Option.none
  FRONTEND_URL : Option String := Option.none
  DATABASE_URL : Option String := Option.none
  DATABASE_NAME : Option String := Option.none
deriving DecidableEq, Repr

/-- Python truthiness of an Optional[str]: None and the empty string are
falsy, every other string is truthy. -/
def pyTruthy : Option String → Bool
  | Option.none => false
  | Option.some s => s != ""

/-- Python truthiness of an Optional[dict]: None and the empty dict are
falsy. -/
def pyTruthyDict : Option (List (String × PyValue)) → Bool
  | Option.none => false
  | Option.some d => !d.isEmpty

/-- Python `a or b` on an Optional[str] `a` and a str `b`. -/
def pyOrStr (a : Option String) (b : String) : String :=
  if pyTruthy a then a.getD b else b

/-- Python `s[:n]`: the first n characters of s. -/
def pyTruncate (s : String) (n : Nat) : String :=
  String.mk (s.data.take n)

/-- Outcome of a handler: a JSON body with status 200, or an
HTTPException with a status code and a detail string. -/
inductive HandlerResult (α : Type) where
  | ok (body : α)
  | httpError (status : Nat) (detail : String)
deriving DecidableEq, Repr

/-- product_data dict built inline for each item (lines 104-112). -/
structure ProductData where
  name : String
  images : Option (List String) := Option.none
  metadata : Option (List (String × PyValue)) := Option.none
deriving DecidableEq, Repr

/-- price_data dict built inline for each item (lines 102-112). -/
structure PriceData where
  currency : String
  product_data : ProductData
  unit_amount : Int
deriving DecidableEq, Repr

/-- One entry of the outbound line_items list (lines 114-117). -/
structure LineItem where
  price_data : PriceData
  quantity : Int
deriving DecidableEq, Repr

/-- The arguments passed to stripe.checkout.Session.create
(lines 122-128). -/
structure SessionParams where
  payment_method_types : List String
  mode : String
  line_items : List LineItem
  success_url : String
  cancel_url : String
deriving DecidableEq, Repr

/-- Successful response body of the checkout handler (line 129). -/
structure CheckoutResponse where
  url : String
deriving DecidableEq, Repr

/-- Loop body of lines 100-117: the line item built from one input item. -/
def buildLineItem (currency : String) (item : CheckoutItem) : LineItem :=
  let price_data : PriceData :=
    { currency := currency
      product_data := { name := item.name }
      unit_amount := item.unit_amount }
  let price_data :=
    if pyTruthy item.image then
      { price_data with
        product_data :=
          { price_data.product_data with images := Option.some [item.image.getD ""] } }
    else price_data
  let price_data :=
    if pyTruthyDict item.metadata then
      { price_data with
        product_data := { price_data.product_data with metadata := item.metadata } }
    else price_data
  { price_data := price_data, quantity := item.quantity }

/-- os.getenv FRONTEND_URL with its default (lines 119-120). -/
def frontendBase (env : Env) : String :=
  env.FRONTEND_URL.getD "http://localhost:3000"

/-- The detail string of the 400 raised on line 93. -/
def stripeNotConfiguredDetail : String :=
  "Stripe is not configured. Please set STRIPE_SECRET_KEY in the backend environment."

/-- The arguments the handler assembles for the Session.create call
(src/main.py lines 99-127): the line_items loop, the redirect URL
resolution and the fixed payment method and mode. -/
def sessionParamsOf (env : Env) (payload : CheckoutRequest) : SessionParams :=
  { payment_method_types := ["card"]
    mode := "payment"
    line_items := payload.items.map (buildLineItem payload.currency)
    success_url := pyOrStr payload.success_url (frontendBase env ++ "/?checkout=success")
    cancel_url := pyOrStr payload.cancel_url (frontendBase env ++ "/?checkout=cancelled") }

/-- Mirrors create_checkout_session (src/main.py lines 89-131). The
stripe argument models the external Session.create call: it maps the
session parameters either to the created session URL or to the string
representation of a raised exception. The second component of the
result records every external call made. -/
def create_checkout_session (env : Env)
    (stripe : SessionParams → Except String String)
    (payload : CheckoutRequest) :
    HandlerResult CheckoutResponse × List SessionParams :=
  if !pyTruthy env.STRIPE_SECRET_KEY then
    (HandlerResult.httpError 400 stripeNotConfiguredDetail, [])
  else
    let params := sessionParamsOf env payload
    let result :=
      match stripe params with
      | Except.ok url => HandlerResult.ok { url := url }
      | Except.error e => HandlerResult.httpError 500 e
    (result, [params])

/-- The database handle of the optional database module: its optional
name attribute (db.name when hasattr(db, a name attribute)) and the
outcome of db.list_collection_names(), either the listed names or the
string representation of a raised exception. -/
structure DbHandle where
  nameAttr : Option String
  list_collection_names : Except String (List String)

/-- Outcome of `from database import db` (lines 57-58): the module may
be missing (ImportError), or found with db either None or a handle. -/
inductive DbModule where
  | importError
  | found (db : Option DbHandle)

/-- The response dict of GET /test (lines 47-54): database_url and
database_name start as None, hence Option String. -/
structure TestResponse where
  backend : String
  database : String
  database_url : Option String
  database_name : Option String
  connection_status : String
  collections : List String
deriving DecidableEq, Repr

/-- Mirrors test_database (src/main.py lines 44-86). Every failure of
the import or of the collection probe is caught, so the handler always
returns an ok (HTTP 200) response. -/
def test_database (dmod : DbModule) (env : Env) : HandlerResult TestResponse :=
  let response : TestResponse :=
    { backend := "✅ Running"
      database := "❌ Not Available"
      database_url := Option.none
      database_name := Option.none
      connection_status := "Not Connected"
      collections := [] }
  let response :=
    match dmod with
    | DbModule.importError =>
      { response with database := "❌ Database module not found (run enable-database first)" }
    | DbModule.found Option.none =>
      { response with database := "⚠️  Available but not initialized" }
    | DbModule.found (Option.some db) =>
      let response :=
        { response with
          database := "✅ Available"
          database_url := Option.some "✅ Configured"
          database_name := Option.some
            (match db.nameAttr with
             | Option.some n => n
             | Option.none => "✅ Connected")
          connection_status := "Connected" }
      match db.list_collection_names with
      | Except.ok collections =>
        { response with
          collections := collections.take 10
          database := "✅ Connected & Working" }
      | Except.error e =>
        { response with database := "⚠️  Connected but Error: " ++ pyTruncate e 50 }
  let response :=
    { response with
      database_url := Option.some (if pyTruthy env.DATABASE_URL then "✅ Set" else "❌ Not Set")
      database_name := Option.some (if pyTruthy env.DATABASE_NAME then "✅ Set" else "❌ Not Set") }
  HandlerResult.ok response

/-- Concrete environment with the Stripe credential configured. -/
def envConfigured : Env := { STRIPE_SECRET_KEY := Option.some "sk_test_123" }

/-- Concrete environment with no variable set. -/
def emptyEnv : Env := {}

/-- Concrete environment with the Stripe credential set to the empty string. -/
def envEmptyKey : Env := { STRIPE_SECRET_KEY := Option.some "" }

/-- A provider stub whose Session.create succeeds with a fixed URL. -/
def stripeOk : SessionParams → Except String String :=
  fun _ => Except.ok "https://checkout.stripe.com/pay/cs_1"

/-- A provider stub whose Session.create raises. -/
def stripeErr : SessionParams → Except String String :=
  fun _ => Except.error "request failed"

/-- A concrete checkout item. -/
def sampleItem : CheckoutItem :=
  { id := "1", name := "Widget", unit_amount := 500, quantity := 2 }

/-- A concrete checkout request. -/
def samplePayload : CheckoutRequest := { items := [sampleItem] }

/-- With the credential truthy, the handler makes exactly one external
call, with the assembled session parameters. -/
theorem create_checkout_session_calls (env : Env)
    (stripe : SessionParams → Except String String) (payload : CheckoutRequest)
    (hk : pyTruthy env.STRIPE_SECRET_KEY = true) :
    (create_checkout_session env stripe payload).2 = [sessionParamsOf env payload] := by
  simp only [create_checkout_session, hk, Bool.not_true]
  rfl

/-- With the credential truthy, the handler's response is determined by
the outcome of the external call. -/
theorem create_checkout_session_result (env : Env)
    (stripe : SessionParams → Except String String) (payload : CheckoutRequest)
    (hk : pyTruthy env.STRIPE_SECRET_KEY = true) :
    (create_checkout_session env stripe payload).1 =
      match stripe (sessionParamsOf env payload) with
      | Except.ok url => HandlerResult.ok { url := url }
      | Except.error e => HandlerResult.httpError 500 e := by
  simp only [create_checkout_session, hk, Bool.not_true]
  rfl

/-- C1: for every checkout request processed with the provider
credential configured, the outbound line_items list has exactly as many
entries as the input items list, and its i-th entry is built from the
i-th input item, so order is preserved. -/
theorem checkout_line_items_preserve_order (env : Env)
    (stripe : SessionParams → Except String String) (payload : CheckoutRequest)
    (hk : pyTruthy env.STRIPE_SECRET_KEY = true) :
    ∃ p, (create_checkout_session env stripe payload).2 = [p] ∧
      p.line_items.length = payload.items.length ∧
      ∀ i (hi : i < payload.items.length) (hj : i < p.line_items.length),
        p.line_items[i] = buildLineItem payload.currency payload.items[i] := by
  refine ⟨_, create_checkout_session_calls env stripe payload hk, ?_, ?_⟩
  · simp [sessionParamsOf]
  · intro i hi hj
    simp [sessionParamsOf]

/-- Witness: checkout_line_items_preserve_order at a concrete input. -/
theorem checkout_line_items_preserve_order_witness :
    pyTruthy envConfigured.STRIPE_SECRET_KEY = true ∧
    (∃ p, (create_checkout_session envConfigured stripeOk samplePayload).2 = [p] ∧
      p.line_items.length = samplePayload.items.length ∧
      ∀ i (hi : i < samplePayload.items.length) (hj : i < p.line_items.length),
        p.line_items[i] = buildLineItem samplePayload.currency samplePayload.items[i]) :=
  ⟨rfl, checkout_line_items_preserve_order envConfigured stripeOk samplePayload rfl⟩

/-- C2: when STRIPE_SECRET_KEY is absent from the environment, the
checkout handler returns HTTP 400 with the configuration-error detail
and makes no external call, whatever the request body. -/
theorem checkout_unconfigured_returns_400 (env : Env)
    (stripe : SessionParams → Except String String) (payload : CheckoutRequest)
    (h : env.STRIPE_SECRET_KEY = Option.none) :
    create_checkout_session env stripe payload =
      (HandlerResult.httpError 400 stripeNotConfiguredDetail, []) := by
  simp only [create_checkout_session, h]
  rfl

/-- Witness: checkout_unconfigured_returns_400 at a concrete input. -/
theorem checkout_unconfigured_returns_400_witness :
    emptyEnv.STRIPE_SECRET_KEY = Option.none ∧
    create_checkout_session emptyEnv stripeOk samplePayload =
      (HandlerResult.httpError 400 stripeNotConfiguredDetail, []) :=
  ⟨rfl, checkout_unconfigured_returns_400 emptyEnv stripeOk samplePayload rfl⟩

/-- C10: when STRIPE_SECRET_KEY is set to the empty string, the
credential check tests falsiness, so the handler returns HTTP 400 with
the configuration-error detail and makes no external call, exactly as
when the variable is absent. -/
theorem checkout_empty_key_returns_400 (env : Env)
    (stripe : SessionParams → Except String String) (payload : CheckoutRequest)
    (h : env.STRIPE_SECRET_KEY = Option.some "") :
    create_checkout_session env stripe payload =
      (HandlerResult.httpError 400 stripeNotConfiguredDetail, []) := by
  simp only [create_checkout_session, h]
  rfl

/-- Witness: checkout_empty_key_returns_400 at a concrete input. -/
theorem checkout_empty_key_returns_400_witness :
    envEmptyKey.STRIPE_SECRET_KEY = Option.some "" ∧
    create_checkout_session envEmptyKey stripeOk samplePayload =
      (HandlerResult.httpError 400 stripeNotConfiguredDetail, []) :=
  ⟨rfl, checkout_empty_key_returns_400 envEmptyKey stripeOk samplePayload rfl⟩

/-- C4: past the credential check, a failing external call (or any
caught error) is mapped to HTTP 500 whose detail is the string
representation of the error, with no further classification, and a
successful call yields a body whose sole field is the provider URL. -/
theorem checkout_error_mapping (env : Env)
    (stripe : SessionParams → Except String String) (payload : CheckoutRequest)
    (hk : pyTruthy env.STRIPE_SECRET_KEY = true) :
    ∃ p, (create_checkout_session env stripe payload).2 = [p] ∧
      (∀ e, stripe p = Except.error e →
        (create_checkout_session env stripe payload).1 = HandlerResult.httpError 500 e) ∧
      (∀ url, stripe p = Except.ok url →
        (create_checkout_session env stripe payload).1 = HandlerResult.ok { url := url }) := by
  refine ⟨_, create_checkout_session_calls env stripe payload hk, ?_, ?_⟩
  · intro e he
    rw [create_checkout_session_result env stripe payload hk, he]
  · intro url hu
    rw [create_checkout_session_result env stripe payload hk, hu]

/-- Witness: checkout_error_mapping at a concrete input. -/
theorem checkout_error_mapping_witness :
    pyTruthy envConfigured.STRIPE_SECRET_KEY = true ∧
    (∃ p, (create_checkout_session envConfigured stripeErr samplePayload).2 = [p] ∧
      (∀ e, stripeErr p = Except.error e →
        (create_checkout_session envConfigured stripeErr samplePayload).1 =
          HandlerResult.httpError 500 e) ∧
      (∀ url, stripeErr p = Except.ok url →
        (create_checkout_session envConfigured stripeErr samplePayload).1 =
          HandlerResult.ok { url := url })) :=
  ⟨rfl, checkout_error_mapping envConfigured stripeErr samplePayload rfl⟩

/-- Python `a or b` where a is None picks b. -/
theorem pyOrStr_none (b : String) : pyOrStr Option.none b = b := rfl

/-- Python `a or b` where a is the empty string picks b. -/
theorem pyOrStr_empty (b : String) : pyOrStr (Option.some "") b = b := rfl

/-- Python `a or b` where a is a non-empty string picks a. -/
theorem pyOrStr_nonempty (s b : String) (h : s ≠ "") : pyOrStr (Option.some s) b = s := by
  simp [pyOrStr, pyTruthy, h]

/-- A checkout request that supplies both redirect URLs as empty strings. -/
def payloadEmptyUrls : CheckoutRequest :=
  { items := [], success_url := Option.some "", cancel_url := Option.some "" }

/-- Counterexample to C3 as stated: the caller supplies success_url
(the empty string), yet the URL sent to the provider is the derived
default, not the supplied value. -/
theorem checkout_supplied_empty_url_counterexample :
    payloadEmptyUrls.success_url = Option.some "" ∧
    (create_checkout_session envConfigured stripeOk payloadEmptyUrls).2.map
      SessionParams.success_url = ["http://localhost:3000/?checkout=success"] ∧
    "http://localhost:3000/?checkout=success" ≠ "" := by
  refine ⟨rfl, rfl, ?_⟩
  decide

/-- C3 amended: an omitted or empty-string success_url (cancel_url)
resolves to the frontend base URL with the fixed query marker appended,
and a supplied non-empty URL is used exactly. -/
theorem checkout_redirect_url_resolution (env : Env)
    (stripe : SessionParams → Except String String) (payload : CheckoutRequest)
    (hk : pyTruthy env.STRIPE_SECRET_KEY = true) :
    ∃ p, (create_checkout_session env stripe payload).2 = [p] ∧
      (payload.success_url = Option.none →
        p.success_url = frontendBase env ++ "/?checkout=success") ∧
      (payload.success_url = Option.some "" →
        p.success_url = frontendBase env ++ "/?checkout=success") ∧
      (∀ s, payload.success_url = Option.some s → s ≠ "" → p.success_url = s) ∧
      (payload.cancel_url = Option.none →
        p.cancel_url = frontendBase env ++ "/?checkout=cancelled") ∧
      (payload.cancel_url = Option.some "" →
        p.cancel_url = frontendBase env ++ "/?checkout=cancelled") ∧
      (∀ s, payload.cancel_url = Option.some s → s ≠ "" → p.cancel_url = s) := by
  refine ⟨_, create_checkout_session_calls env stripe payload hk, ?_, ?_, ?_, ?_, ?_, ?_⟩
  · intro h
    simp only [sessionParamsOf, h, pyOrStr_none]
  · intro h
    simp only [sessionParamsOf, h, pyOrStr_empty]
  · intro s hs hne
    simp only [sessionParamsOf, hs]
    exact pyOrStr_nonempty s _ hne
  · intro h
    simp only [sessionParamsOf, h, pyOrStr_none]
  · intro h
    simp only [sessionParamsOf, h, pyOrStr_empty]
  · intro s hs hne
    simp only [sessionParamsOf, hs]
    exact pyOrStr_nonempty s _ hne

/-- Witness: checkout_redirect_url_resolution at a concrete input. -/
theorem checkout_redirect_url_resolution_witness :
    pyTruthy envConfigured.STRIPE_SECRET_KEY = true ∧
    (∃ p, (create_checkout_session envConfigured stripeOk samplePayload).2 = [p] ∧
      (samplePayload.success_url = Option.none →
        p.success_url = frontendBase envConfigured ++ "/?checkout=success") ∧
      (samplePayload.success_url = Option.some "" →
        p.success_url = frontendBase envConfigured ++ "/?checkout=success") ∧
      (∀ s, samplePayload.success_url = Option.some s → s ≠ "" → p.success_url = s) ∧
      (samplePayload.cancel_url = Option.none →
        p.cancel_url = frontendBase envConfigured ++ "/?checkout=cancelled") ∧
      (samplePayload.cancel_url = Option.some "" →
        p.cancel_url = frontendBase envConfigured ++ "/?checkout=cancelled") ∧
      (∀ s, samplePayload.cancel_url = Option.some s → s ≠ "" → p.cancel_url = s)) :=
  ⟨rfl, checkout_redirect_url_resolution envConfigured stripeOk samplePayload rfl⟩

/-- The built line item keeps the input quantity. -/
theorem buildLineItem_quantity (c : String) (item : CheckoutItem) :
    (buildLineItem c item).quantity = item.quantity := rfl

/-- The built price_data carries the request currency. -/
theorem buildLineItem_currency (c : String) (item : CheckoutItem) :
    (buildLineItem c item).price_data.currency = c := by
  simp only [buildLineItem]
  split <;> split <;> rfl

/-- The built product_data carries the item name. -/
theorem buildLineItem_name (c : String) (item : CheckoutItem) :
    (buildLineItem c item).price_data.product_data.name = item.name := by
  simp only [buildLineItem]
  split <;> split <;> rfl

/-- The built price_data carries the item unit price. -/
theorem buildLineItem_unit_amount (c : String) (item : CheckoutItem) :
    (buildLineItem c item).price_data.unit_amount = item.unit_amount := by
  simp only [buildLineItem]
  split <;> split <;> rfl

/-- With a truthy image, the images field is the singleton of it. -/
theorem buildLineItem_images_of_truthy (c : String) (item : CheckoutItem)
    (h : pyTruthy item.image = true) :
    (buildLineItem c item).price_data.product_data.images =
      Option.some [item.image.getD ""] := by
  simp only [buildLineItem, h, if_true]
  split <;> rfl

/-- With a falsy image (None or empty), no images field is set. -/
theorem buildLineItem_images_of_falsy (c : String) (item : CheckoutItem)
    (h : pyTruthy item.image = false) :
    (buildLineItem c item).price_data.product_data.images = Option.none := by
  simp only [buildLineItem, h, Bool.false_eq_true, if_false]
  split <;> rfl

/-- With a truthy metadata dict, the metadata field is set to it. -/
theorem buildLineItem_metadata_of_truthy (c : String) (item : CheckoutItem)
    (h : pyTruthyDict item.metadata = true) :
    (buildLineItem c item).price_data.product_data.metadata = item.metadata := by
  simp only [buildLineItem, h, if_true]

/-- With a falsy metadata dict (None or empty), no metadata field is set. -/
theorem buildLineItem_metadata_of_falsy (c : String) (item : CheckoutItem)
    (h : pyTruthyDict item.metadata = false) :
    (buildLineItem c item).price_data.product_data.metadata = Option.none := by
  simp only [buildLineItem, h, Bool.false_eq_true, if_false]
  split <;> rfl

/-- An item whose image and metadata are present but empty. -/
def emptyishItem : CheckoutItem :=
  { id := "2", name := "Gadget", unit_amount := 100,
    image := Option.some "", metadata := Option.some [] }

/-- Counterexample to C8 as stated: the image and the metadata of the
item are present, yet neither an images field nor a metadata field is
set in the outbound product data. -/
theorem line_item_empty_image_counterexample :
    emptyishItem.image.isSome = true ∧ emptyishItem.metadata.isSome = true ∧
    (buildLineItem "usd" emptyishItem).price_data.product_data.images = Option.none ∧
    (buildLineItem "usd" emptyishItem).price_data.product_data.metadata = Option.none :=
  ⟨rfl, rfl, rfl, rfl⟩

/-- C8 amended: each outbound price-description carries the request
currency, the item name and the unit price, paired with the quantity;
the images field is the singleton of the image exactly when the image
is present and non-empty, and the metadata field equals the metadata
mapping exactly when it is present and non-empty. -/
theorem line_item_field_contents (currency : String) (item : CheckoutItem) :
    (buildLineItem currency item).price_data.currency = currency ∧
    (buildLineItem currency item).price_data.product_data.name = item.name ∧
    (buildLineItem currency item).price_data.unit_amount = item.unit_amount ∧
    (buildLineItem currency item).quantity = item.quantity ∧
    (∀ s, item.image = Option.some s → s ≠ "" →
      (buildLineItem currency item).price_data.product_data.images = Option.some [s]) ∧
    ((item.image = Option.none ∨ item.image = Option.some "") →
      (buildLineItem currency item).price_data.product_data.images = Option.none) ∧
    (∀ m, item.metadata = Option.some m → m ≠ [] →
      (buildLineItem currency item).price_data.product_data.metadata = Option.some m) ∧
    ((item.metadata = Option.none ∨ item.metadata = Option.some []) →
      (buildLineItem currency item).price_data.product_data.metadata = Option.none) := by
  refine ⟨buildLineItem_currency currency item, buildLineItem_name currency item,
    buildLineItem_unit_amount currency item, buildLineItem_quantity currency item,
    ?_, ?_, ?_, ?_⟩
  · intro s hs hne
    have h : pyTruthy item.image = true := by
      rw [hs]
      simpa [pyTruthy] using hne
    rw [buildLineItem_images_of_truthy currency item h, hs]
    rfl
  · rintro (h0 | h0) <;>
      exact buildLineItem_images_of_falsy currency item (by rw [h0]; rfl)
  · intro m hm hne
    have h : pyTruthyDict item.metadata = true := by
      rw [hm]
      cases m with
      | nil => exact absurd rfl hne
      | cons a t => rfl
    rw [buildLineItem_metadata_of_truthy currency item h, hm]
  · rintro (h0 | h0) <;>
      exact buildLineItem_metadata_of_falsy currency item (by rw [h0]; rfl)

/-- An item with a non-empty image and non-empty metadata. -/
def imageItem : CheckoutItem :=
  { id := "3", name := "Photo", unit_amount := 250,
    image := Option.some "https://img.example/p.png",
    metadata := Option.some [("sku", PyValue.str "P-1")] }

/-- Witness: line_item_field_contents at a concrete input. -/
theorem line_item_field_contents_witness :
    (buildLineItem "usd" imageItem).price_data.product_data.images =
      Option.some ["https://img.example/p.png"] ∧
    (buildLineItem "usd" imageItem).price_data.product_data.metadata =
      Option.some [("sku", PyValue.str "P-1")] :=
  ⟨(line_item_field_contents "usd" imageItem).2.2.2.2.1
      "https://img.example/p.png" rfl (by decide),
   (line_item_field_contents "usd" imageItem).2.2.2.2.2.2.1
      [("sku", PyValue.str "P-1")] rfl (by decide)⟩

/-- The first n characters of a string number at most n. -/
theorem pyTruncate_length_le (s : String) (n : Nat) : (pyTruncate s n).length ≤ n := by
  show (s.data.take n).length ≤ n
  rw [List.length_take]
  exact min_le_left _ _

/-- C5: the diagnostic handler never raises: for every outcome of the
module import (missing, handle None, handle present) and of the
collection probe (success or failure), it returns an ok (HTTP 200)
response whose backend field is the running marker. -/
theorem test_database_always_ok (dmod : DbModule) (env : Env) :
    ∃ r, test_database dmod env = HandlerResult.ok r ∧ r.backend = "✅ Running" := by
  cases dmod with
  | importError => exact ⟨_, rfl, rfl⟩
  | found odb =>
    cases odb with
    | none => exact ⟨_, rfl, rfl⟩
    | some db =>
      obtain ⟨na, lcn⟩ := db
      cases lcn with
      | ok l => exact ⟨_, rfl, rfl⟩
      | error e => exact ⟨_, rfl, rfl⟩

/-- C6: when the collection probe succeeds, the reported collections
are the first ten of the returned names, hence at most ten. -/
theorem test_collections_first_ten (db : DbHandle) (env : Env) (l : List String)
    (h : db.list_collection_names = Except.ok l) :
    ∃ r, test_database (DbModule.found (Option.some db)) env = HandlerResult.ok r ∧
      r.collections = l.take 10 ∧ r.collections.length ≤ 10 := by
  obtain ⟨na, lcn⟩ := db
  replace h : lcn = Except.ok l := h
  subst h
  have hlen : (l.take 10).length ≤ 10 := by
    rw [List.length_take]
    exact min_le_left _ _
  exact ⟨_, rfl, rfl, hlen⟩

/-- A handle whose probe returns twelve collection names. -/
def dbTwelve : DbHandle :=
  { nameAttr := Option.some "shop"
    list_collection_names := Except.ok
      ["c01", "c02", "c03", "c04", "c05", "c06", "c07", "c08", "c09", "c10", "c11", "c12"] }

/-- Witness: test_collections_first_ten at a concrete input. -/
theorem test_collections_first_ten_witness :
    ∃ r, test_database (DbModule.found (Option.some dbTwelve)) emptyEnv =
        HandlerResult.ok r ∧
      r.collections =
        (["c01", "c02", "c03", "c04", "c05", "c06", "c07", "c08", "c09", "c10",
          "c11", "c12"] : List String).take 10 ∧
      r.collections.length ≤ 10 :=
  test_collections_first_ten dbTwelve emptyEnv
    ["c01", "c02", "c03", "c04", "c05", "c06", "c07", "c08", "c09", "c10", "c11", "c12"] rfl

/-- C7: when the handle is present but the collection probe raises, the
database field embeds at most the first fifty characters of the error
string and the connection_status field still reports Connected. -/
theorem test_probe_error_truncated (db : DbHandle) (env : Env) (e : String)
    (h : db.list_collection_names = Except.error e) :
    ∃ r, test_database (DbModule.found (Option.some db)) env = HandlerResult.ok r ∧
      r.database = "⚠️  Connected but Error: " ++ pyTruncate e 50 ∧
      (pyTruncate e 50).length ≤ 50 ∧
      r.connection_status = "Connected" := by
  obtain ⟨na, lcn⟩ := db
  replace h : lcn = Except.error e := h
  subst h
  exact ⟨_, rfl, rfl, pyTruncate_length_le e 50, rfl⟩

/-- A handle whose probe raises with a long error message. -/
def dbFailing : DbHandle :=
  { nameAttr := Option.none
    list_collection_names := Except.error
      "connection refused while contacting the database server at port 27017" }

/-- Witness: test_probe_error_truncated at a concrete input. -/
theorem test_probe_error_truncated_witness :
    ∃ r, test_database (DbModule.found (Option.some dbFailing)) emptyEnv =
        HandlerResult.ok r ∧
      r.database = "⚠️  Connected but Error: " ++
        pyTruncate "connection refused while contacting the database server at port 27017" 50 ∧
      (pyTruncate "connection refused while contacting the database server at port 27017" 50).length ≤ 50 ∧
      r.connection_status = "Connected" :=
  test_probe_error_truncated dbFailing emptyEnv
    "connection refused while contacting the database server at port 27017" rfl

/-- Environment where DATABASE_URL is set to the empty string. -/
def envDbUrlEmpty : Env := { DATABASE_URL := Option.some "", DATABASE_NAME := Option.some "app" }

/-- Environment where DATABASE_URL is set to a non-empty value. -/
def envDbUrlFull : Env :=
  { DATABASE_URL := Option.some "mongodb://localhost:27017", DATABASE_NAME := Option.some "app" }

/-- Counterexample to C9 as stated: two environments agreeing on the
set/unset status of DATABASE_URL and DATABASE_NAME (both set) produce
different database_url fields, because the code tests truthiness, not
presence. -/
theorem test_env_presence_counterexample :
    envDbUrlEmpty.DATABASE_URL.isSome = envDbUrlFull.DATABASE_URL.isSome ∧
    envDbUrlEmpty.DATABASE_NAME.isSome = envDbUrlFull.DATABASE_NAME.isSome ∧
    ∃ r1 r2, test_database DbModule.importError envDbUrlEmpty = HandlerResult.ok r1 ∧
      test_database DbModule.importError envDbUrlFull = HandlerResult.ok r2 ∧
      r1.database_url ≠ r2.database_url := by
  refine ⟨rfl, rfl, _, _, rfl, rfl, ?_⟩
  decide

/-- C9 amended: the database_url and database_name fields depend only
on the truthiness (set to a non-empty value) of DATABASE_URL and
DATABASE_NAME, and are always one of the two fixed marker strings, so
no environment-variable value ever appears in them. -/
theorem test_env_flags_depend_only_on_truthiness (d1 d2 : DbModule) (e1 e2 : Env)
    (hu : pyTruthy e1.DATABASE_URL = pyTruthy e2.DATABASE_URL)
    (hn : pyTruthy e1.DATABASE_NAME = pyTruthy e2.DATABASE_NAME) :
    ∃ r1 r2, test_database d1 e1 = HandlerResult.ok r1 ∧
      test_database d2 e2 = HandlerResult.ok r2 ∧
      r1.database_url = r2.database_url ∧ r1.database_name = r2.database_name ∧
      (r1.database_url = Option.some "✅ Set" ∨ r1.database_url = Option.some "❌ Not Set") ∧
      (r1.database_name = Option.some "✅ Set" ∨ r1.database_name = Option.some "❌ Not Set") := by
  refine ⟨_, _, rfl, rfl, ?_, ?_, ?_, ?_⟩
  · show Option.some (if pyTruthy e1.DATABASE_URL then "✅ Set" else "❌ Not Set") =
      Option.some (if pyTruthy e2.DATABASE_URL then "✅ Set" else "❌ Not Set")
    rw [hu]
  · show Option.some (if pyTruthy e1.DATABASE_NAME then "✅ Set" else "❌ Not Set") =
      Option.some (if pyTruthy e2.DATABASE_NAME then "✅ Set" else "❌ Not Set")
    rw [hn]
  · show (Option.some (if pyTruthy e1.DATABASE_URL then "✅ Set" else "❌ Not Set") =
        Option.some "✅ Set") ∨
      (Option.some (if pyTruthy e1.DATABASE_URL then "✅ Set" else "❌ Not Set") =
        Option.some "❌ Not Set")
    cases hb : pyTruthy e1.DATABASE_URL with
    | false => exact Or.inr rfl
    | true => exact Or.inl rfl
  · show (Option.some (if pyTruthy e1.DATABASE_NAME then "✅ Set" else "❌ Not Set") =
        Option.some "✅ Set") ∨
      (Option.some (if pyTruthy e1.DATABASE_NAME then "✅ Set" else "❌ Not Set") =
        Option.some "❌ Not Set")
    cases hb : pyTruthy e1.DATABASE_NAME with
    | false => exact Or.inr rfl
    | true => exact Or.inl rfl

/-- Environment where only DATABASE_URL is set, to the empty string. -/
def envOnlyUrlEmpty : Env := { DATABASE_URL := Option.some "" }

/-- Witness: test_env_flags_depend_only_on_truthiness at concrete inputs. -/
theorem test_env_flags_witness :
    ∃ r1 r2, test_database DbModule.importError emptyEnv = HandlerResult.ok r1 ∧
      test_database (DbModule.found Option.none) envOnlyUrlEmpty = HandlerResult.ok r2 ∧
      r1.database_url = r2.database_url ∧ r1.database_name = r2.database_name ∧
      (r1.database_url = Option.some "✅ Set" ∨ r1.database_url = Option.some "❌ Not Set") ∧
      (r1.database_name = Option.some "✅ Set" ∨ r1.database_name = Option.some "❌ Not Set") :=
  test_env_flags_depend_only_on_truthiness DbModule.importError (DbModule.found Option.none)
    emptyEnv envOnlyUrlEmpty (by decide) rfl
